import Mathlib

/-!
# Verification of the DataVest dashboard calculation core

Shallow embedding of the fee/tier and time-series logic of
`src/dashboard.py`. Numeric values carried by the program (prices,
investment amounts, fee rates) are modelled as exact rationals `ℚ`;
tables are lists of rows. Tier and horizon labels are kept as the
string constants used by the source. Dictionary lookups that can raise
`KeyError` in Python are modelled as `Option`-valued functions.
-/

namespace Datavest

/-- Embeds `get_fee_rate_by_tier` (dashboard.py lines 14-21): the fixed
`fee_matrix` dictionary keyed by horizon then tier. An unknown key means
a Python `KeyError`, modelled as `none`. Decimal literals of the source
are written as exact fractions (`2.5 = 5/2`, etc.). -/
def get_fee_rate_by_tier : String → String → Option ℚ
  | "10-50", "3 months" => some 2
  | "50-250", "3 months" => some (9 / 5)
  | "250-500", "3 months" => some (3 / 2)
  | "500-1000", "3 months" => some (6 / 5)
  | ">1000", "3 months" => some 1
  | "10-50", "6 months" => some (5 / 2)
  | "50-250", "6 months" => some (23 / 10)
  | "250-500", "6 months" => some (11 / 5)
  | "500-1000", "6 months" => some 2
  | ">1000", "6 months" => some (9 / 5)
  | "10-50", "9 months" => some 3
  | "50-250", "9 months" => some (14 / 5)
  | "250-500", "9 months" => some (27 / 10)
  | "500-1000", "9 months" => some (13 / 5)
  | ">1000", "9 months" => some (5 / 2)
  | "10-50", "1 year" => some (7 / 2)
  | "50-250", "1 year" => some (33 / 10)
  | "250-500", "1 year" => some (31 / 10)
  | "500-1000", "1 year" => some 3
  | ">1000", "1 year" => some (29 / 10)
  | _, _ => none

/-- Embeds `determine_tier` (dashboard.py lines 23-33): the if/elif chain
classifying an investment amount (in million Toman) into a tier label. -/
def determine_tier (investment_million : ℚ) : String :=
  if investment_million ≤ 50 then "10-50"
  else if investment_million ≤ 250 then "50-250"
  else if investment_million ≤ 500 then "250-500"
  else if investment_million ≤ 1000 then "500-1000"
  else ">1000"

/-- Embeds the installment-count logic of the Fee Calculator tab
(dashboard.py lines 164-169): starts at 1, bumped to 2 or 3 for long
horizons depending on the tier. -/
def num_installments (tier fee_horizon : String) : ℕ :=
  if fee_horizon = "6 months" ∨ fee_horizon = "9 months" ∨ fee_horizon = "1 year" then
    if tier = "250-500" then 2
    else if tier = "500-1000" ∨ tier = ">1000" then 3
    else 1
  else 1

/-- Embeds `months_map` (dashboard.py line 184): dictionary lookup from
horizon label to month count; unknown key is a `KeyError`, hence `none`. -/
def months_map : String → Option ℕ
  | "3 months" => some 3
  | "6 months" => some 6
  | "9 months" => some 9
  | "1 year" => some 12
  | _ => none

/-- The quantities the Fee Calculator tab computes and displays for one
request (dashboard.py lines 157-192). `each` is `none` when no installment
plan is shown (`num_installments = 1`). -/
structure FeeQuote where
  tier : String
  rate : ℚ
  fee_rial : ℚ
  n_installments : ℕ
  each : Option ℚ
  reference_monthly_fee : ℚ
  current_monthly_fee : ℚ
  deriving DecidableEq, Repr

/-- Embeds the Fee Calculator tab computation (dashboard.py lines 157-192)
as one pure function of the two inputs. `fee_investment` is the amount in
Toman (`million * 1_00_000 * 10`); `0.05` of the surcharge is `5/100`.
`none` corresponds to a `KeyError` from one of the dictionary lookups. -/
def fee_calculator (fee_investment_million : ℚ) (fee_horizon : String) : Option FeeQuote :=
  let fee_investment : ℚ := fee_investment_million * 100000 * 10
  let tier := determine_tier fee_investment_million
  match get_fee_rate_by_tier tier fee_horizon,
        get_fee_rate_by_tier tier "3 months",
        months_map fee_horizon with
  | some base_rate, some reference_rate, some current_months =>
    let n := num_installments tier fee_horizon
    let fee_rial := fee_investment * base_rate / 100
    some
      { tier := tier
        rate := base_rate
        fee_rial := fee_rial
        n_installments := n
        each := if 1 < n then some ((fee_rial + fee_rial * (5 / 100)) / n) else none
        reference_monthly_fee := reference_rate / 100 * fee_investment / 3
        current_monthly_fee := base_rate / 100 * fee_investment / current_months }
  | _, _, _ => none

/-! ## Time-series normalization and ranking -/

/-- Embeds `df.tail(weeks)` (dashboard.py line 53): keep the last `w` rows
of the table (all rows when `w` exceeds the row count). -/
def tail_window (rows : List (List ℚ)) (w : ℕ) : List (List ℚ) :=
  rows.drop (rows.length - w)

/-- Row/column access into a table, with junk default `0` out of bounds
(claims only ever use it in bounds). -/
def cell (t c : ℕ) (m : List (List ℚ)) : ℚ :=
  (m.getD t []).getD c 0

/-- Embeds `wealth_df = df_period / df_period.iloc[0] * chart_investment`
(dashboard.py lines 52-54) over exact rationals: every retained row is
divided elementwise by the first retained row and scaled by the initial
investment. The empty-table case (where `iloc[0]` would raise) returns the
empty table here; `wealth_pandas` below models that failure explicitly. -/
def wealth_df (rows : List (List ℚ)) (w : ℕ) (chart_investment : ℚ) : List (List ℚ) :=
  (tail_window rows w).map
    (fun r => List.zipWith (fun x b => x / b * chart_investment) r
      ((tail_window rows w).headD []))

/-- A pandas float64 cell value: a finite (exact) value, a signed infinity,
or NaN. Used to model what `df_period / df_period.iloc[0]` actually does on
a zero baseline instead of raising. -/
inductive PFloat where
  | val : ℚ → PFloat
  | inf : PFloat
  | ninf : PFloat
  | nan : PFloat
  deriving DecidableEq, Repr

/-- Pandas/IEEE division of two finite float cells: a zero denominator
silently yields a signed infinity (or NaN for `0/0`), never an error. -/
def pdiv (x y : ℚ) : PFloat :=
  if y ≠ 0 then PFloat.val (x / y)
  else if 0 < x then PFloat.inf
  else if x < 0 then PFloat.ninf
  else PFloat.nan

/-- Pandas/IEEE multiplication of a float cell by a finite scalar. -/
def pmul (x : PFloat) (k : ℚ) : PFloat :=
  match x with
  | PFloat.val q => PFloat.val (q * k)
  | PFloat.inf => if 0 < k then PFloat.inf else if k < 0 then PFloat.ninf else PFloat.nan
  | PFloat.ninf => if 0 < k then PFloat.ninf else if k < 0 then PFloat.inf else PFloat.nan
  | PFloat.nan => PFloat.nan

/-- Embeds `wealth_df = df_period / df_period.iloc[0] * chart_investment`
(dashboard.py lines 52-54) with pandas float semantics: `none` models the
(untyped) `IndexError` that `df_period.iloc[0]` raises on an empty trimmed
table, and a zero baseline propagates as infinity/NaN cell values. -/
def wealth_pandas (rows : List (List ℚ)) (w : ℕ) (chart_investment : ℚ) :
    Option (List (List PFloat)) :=
  match tail_window rows w with
  | [] => none
  | base :: rest =>
    some ((base :: rest).map (fun r =>
      List.zipWith (fun x b => pmul (pdiv x b) chart_investment) r base))

/-- Count of entries of the row strictly greater than `v`. -/
def greaterCount (row : List ℚ) (v : ℚ) : ℕ :=
  row.countP (fun w => v < w)

/-- Count of entries of the row equal to `v` (at least 1 when `v` is taken
from the row). -/
def tieCount (row : List ℚ) (v : ℚ) : ℕ :=
  row.countP (fun w => w = v)

/-- Embeds pandas `DataFrame.rank(axis=1, ascending=False)` on one row
(dashboard.py line 100) with the default `method='average'`: an entry tied
with `t` entries (itself included) and beaten by `g` strictly greater ones
occupies ordinal positions `g+1 .. g+t` and receives their average,
`g + (t+1)/2`. -/
def rank_row (row : List ℚ) : List ℚ :=
  row.map (fun v => (greaterCount row v : ℚ) + ((tieCount row v : ℚ) + 1) / 2)

/-- Embeds `ranking = df_period.rank(axis=1, ascending=False)`
(dashboard.py line 100): per-row average ranks of the trimmed raw table. -/
def ranking (rows : List (List ℚ)) (w : ℕ) : List (List ℚ) :=
  (tail_window rows w).map rank_row

/-! ## Claim theorems -/

/-- C1: for every valid tier in {≤50, ≤250, ≤500, ≤1000, >1000} and every
horizon in {3, 6, 9, 12 months}, the fee rate returned by the quote
computation equals the fixed 5×4 lookup table of spec §4.3 (written here
with the spec's decimal values; e.g. tier ≤50 at 3mo gives 2.0 and tier
>1000 at 12mo gives 2.9). -/
theorem fee_rate_matches_spec_table :
    get_fee_rate_by_tier "10-50" "3 months" = some (2.0 : ℚ) ∧
    get_fee_rate_by_tier "10-50" "6 months" = some (2.5 : ℚ) ∧
    get_fee_rate_by_tier "10-50" "9 months" = some (3.0 : ℚ) ∧
    get_fee_rate_by_tier "10-50" "1 year" = some (3.5 : ℚ) ∧
    get_fee_rate_by_tier "50-250" "3 months" = some (1.8 : ℚ) ∧
    get_fee_rate_by_tier "50-250" "6 months" = some (2.3 : ℚ) ∧
    get_fee_rate_by_tier "50-250" "9 months" = some (2.8 : ℚ) ∧
    get_fee_rate_by_tier "50-250" "1 year" = some (3.3 : ℚ) ∧
    get_fee_rate_by_tier "250-500" "3 months" = some (1.5 : ℚ) ∧
    get_fee_rate_by_tier "250-500" "6 months" = some (2.2 : ℚ) ∧
    get_fee_rate_by_tier "250-500" "9 months" = some (2.7 : ℚ) ∧
    get_fee_rate_by_tier "250-500" "1 year" = some (3.1 : ℚ) ∧
    get_fee_rate_by_tier "500-1000" "3 months" = some (1.2 : ℚ) ∧
    get_fee_rate_by_tier "500-1000" "6 months" = some (2.0 : ℚ) ∧
    get_fee_rate_by_tier "500-1000" "9 months" = some (2.6 : ℚ) ∧
    get_fee_rate_by_tier "500-1000" "1 year" = some (3.0 : ℚ) ∧
    get_fee_rate_by_tier ">1000" "3 months" = some (1.0 : ℚ) ∧
    get_fee_rate_by_tier ">1000" "6 months" = some (1.8 : ℚ) ∧
    get_fee_rate_by_tier ">1000" "9 months" = some (2.5 : ℚ) ∧
    get_fee_rate_by_tier ">1000" "1 year" = some (2.9 : ℚ) := by
  refine ⟨?_, ?_, ?_, ?_, ?_, ?_, ?_, ?_, ?_, ?_, ?_, ?_, ?_, ?_, ?_, ?_, ?_, ?_, ?_, ?_⟩ <;>
    · norm_num
      rfl

/-- C2: tier classification partitions every investment amount into exactly
one of the five bands with inclusive upper edges: each tier label is
returned exactly on its band, and in particular an investment of exactly
50 falls in the ≤50 tier ("10-50"), not the ≤250 tier. -/
theorem determine_tier_partition (m : ℚ) :
    ((determine_tier m = "10-50" ↔ m ≤ 50) ∧
     (determine_tier m = "50-250" ↔ 50 < m ∧ m ≤ 250) ∧
     (determine_tier m = "250-500" ↔ 250 < m ∧ m ≤ 500) ∧
     (determine_tier m = "500-1000" ↔ 500 < m ∧ m ≤ 1000) ∧
     (determine_tier m = ">1000" ↔ 1000 < m)) ∧
    determine_tier (50 : ℚ) = "10-50" := by
  constructor
  · unfold determine_tier
    split_ifs with h1 h2 h3 h4 <;>
      refine ⟨?_, ?_, ?_, ?_, ?_⟩ <;>
      constructor <;>
      intro h <;>
      first
        | rfl
        | linarith
        | exact absurd h (by decide)
        | (obtain ⟨ha, hb⟩ := h; linarith)
        | (exfalso; exact absurd h (by decide))
        | constructor <;> linarith
  · norm_num [determine_tier]

/-- C4: the installment count follows the policy exactly: horizon 3 months
gives 1 installment in every tier; horizons 6/9/12 months give 1 for tiers
≤50 and ≤250, 2 for tier ≤500, and 3 for tiers ≤1000 and >1000. -/
theorem num_installments_policy :
    num_installments "10-50" "3 months" = 1 ∧
    num_installments "50-250" "3 months" = 1 ∧
    num_installments "250-500" "3 months" = 1 ∧
    num_installments "500-1000" "3 months" = 1 ∧
    num_installments ">1000" "3 months" = 1 ∧
    num_installments "10-50" "6 months" = 1 ∧
    num_installments "50-250" "6 months" = 1 ∧
    num_installments "250-500" "6 months" = 2 ∧
    num_installments "500-1000" "6 months" = 3 ∧
    num_installments ">1000" "6 months" = 3 ∧
    num_installments "10-50" "9 months" = 1 ∧
    num_installments "50-250" "9 months" = 1 ∧
    num_installments "250-500" "9 months" = 2 ∧
    num_installments "500-1000" "9 months" = 3 ∧
    num_installments ">1000" "9 months" = 3 ∧
    num_installments "10-50" "1 year" = 1 ∧
    num_installments "50-250" "1 year" = 1 ∧
    num_installments "250-500" "1 year" = 2 ∧
    num_installments "500-1000" "1 year" = 3 ∧
    num_installments ">1000" "1 year" = 3 := by
  decide

/-- Helper: a strictly smaller current fee yields a strictly positive
saving and saving percentage. -/
lemma saving_pos_of_lt {cur ref : ℚ} (hlt : cur < ref) (href : 0 < ref) :
    0 < ref - cur ∧ 0 < (ref - cur) / ref * 100 :=
  ⟨by linarith, mul_pos (div_pos (by linarith) href) (by norm_num)⟩

/-- C5: whenever the quote has more than one installment, the
per-installment amount times the installment count equals the total fee
times 1.05 (the flat 5% surcharge applied before the even split), and the
total fee is the investment amount (in Toman) times the rate over 100. -/
theorem installment_surcharge_law (m : ℚ) (h : String) (q : FeeQuote) (e : ℚ)
    (hq : fee_calculator m h = some q) (hn : 1 < q.n_installments)
    (he : q.each = some e) :
    e * (q.n_installments : ℚ) = q.fee_rial * (1.05 : ℚ) ∧
    q.fee_rial = (m * 100000 * 10) * q.rate / 100 := by
  rw [fee_calculator.eq_def] at hq
  simp only [] at hq
  split at hq
  · next base_rate reference_rate current_months heq1 heq2 heq3 =>
      obtain rfl := Option.some.inj hq
      simp only at hn he ⊢
      rw [if_pos hn] at he
      obtain rfl := Option.some.inj he
      have hnq : ((num_installments (determine_tier m) h : ℕ) : ℚ) ≠ 0 := by
        have : 0 < num_installments (determine_tier m) h :=
          Nat.lt_of_lt_of_le Nat.zero_lt_one hn.le
        exact_mod_cast this.ne'
      constructor
      · field_simp
        ring
      · trivial
  · simp at hq

/-- C5 witness: at investment 600 (million) and horizon 1 year the quote
has 3 installments of 6,300,000 Toman each, total fee 18,000,000 Toman,
and the surcharge law holds there. -/
theorem installment_surcharge_law_witness :
    (6300000 : ℚ) * ((3 : ℕ) : ℚ) = (18000000 : ℚ) * (1.05 : ℚ) ∧
    (18000000 : ℚ) = 600 * 100000 * 10 * (3 : ℚ) / 100 := by
  have hq : fee_calculator 600 "1 year" =
      some ⟨"500-1000", 3, 18000000, 3, some 6300000, 2400000, 1500000⟩ := by
    have h1 : determine_tier 600 = "500-1000" := by norm_num [determine_tier]
    rw [fee_calculator.eq_def]
    simp only [h1]
    simp only [show get_fee_rate_by_tier "500-1000" "1 year" = some 3 from rfl,
      show get_fee_rate_by_tier "500-1000" "3 months" = some (6 / 5 : ℚ) from rfl,
      show months_map "1 year" = some 12 from rfl,
      show num_installments "500-1000" "1 year" = 3 from rfl]
    norm_num
  exact installment_surcharge_law 600 "1 year" _ 6300000 hq (by norm_num) rfl

/-- C9 counterexample: an investment amount of 0 (which is ≤ 0) is NOT
rejected: it is classified into the "10-50" tier and a full quote (rate 2,
total fee 0) is produced; there is no typed InvalidInvestmentError anywhere
in the computation. -/
theorem nonpositive_amount_quoted_cex :
    determine_tier 0 = "10-50" ∧
    fee_calculator 0 "3 months" = some ⟨"10-50", 2, 0, 1, none, 0, 0⟩ := by
  have h1 : determine_tier 0 = "10-50" := by norm_num [determine_tier]
  refine ⟨h1, ?_⟩
  rw [fee_calculator.eq_def]
  simp only [h1]
  simp only [show get_fee_rate_by_tier "10-50" "3 months" = some 2 from rfl,
    show months_map "3 months" = some 3 from rfl,
    show num_installments "10-50" "3 months" = 1 from rfl]
  norm_num

/-- C9 amended: for every investment amount ≤ 0 and every quotable horizon,
the fee computation does not fail: the amount is classified into the first
tier "10-50" and a quote is produced. -/
theorem nonpositive_amount_quoted (m : ℚ) (hm : m ≤ 0) (h : String)
    (hh : h ∈ ["3 months", "6 months", "9 months", "1 year"]) :
    determine_tier m = "10-50" ∧ (fee_calculator m h).isSome = true := by
  have htier : determine_tier m = "10-50" := by
    unfold determine_tier
    rw [if_pos (by linarith : m ≤ 50)]
  refine ⟨htier, ?_⟩
  rw [fee_calculator.eq_def]
  simp only [htier]
  fin_cases hh <;> rfl

/-- C9 amended witness: investment −5 at horizon 6 months is classified
into tier "10-50" and still gets a quote. -/
theorem nonpositive_amount_quoted_witness :
    determine_tier (-5) = "10-50" ∧ (fee_calculator (-5) "6 months").isSome = true :=
  nonpositive_amount_quoted (-5) (by norm_num) "6 months" (by decide)

/-- C10: for every tier, every horizon in {6 months, 9 months, 1 year} and
every positive investment amount, the current monthly fee (rate/100 ×
amount / months) is strictly less than the reference 3-month monthly fee
(rate(tier, 3mo)/100 × amount / 3), so the displayed saving amount and
saving percentage are strictly positive. -/
theorem longer_horizon_saves (tier h : String) (r r3 : ℚ) (mo : ℕ) (amt : ℚ)
    (htier : tier ∈ ["10-50", "50-250", "250-500", "500-1000", ">1000"])
    (hh : h ∈ ["6 months", "9 months", "1 year"])
    (hr : get_fee_rate_by_tier tier h = some r)
    (hr3 : get_fee_rate_by_tier tier "3 months" = some r3)
    (hmo : months_map h = some mo)
    (hamt : 0 < amt) :
    r / 100 * amt / (mo : ℚ) < r3 / 100 * amt / 3 ∧
    0 < r3 / 100 * amt / 3 - r / 100 * amt / (mo : ℚ) ∧
    0 < (r3 / 100 * amt / 3 - r / 100 * amt / (mo : ℚ)) / (r3 / 100 * amt / 3) * 100 := by
  fin_cases htier <;> fin_cases hh
  · obtain rfl := Option.some.inj
      ((show get_fee_rate_by_tier "10-50" "6 months" = some (5/2 : ℚ) from rfl).symm.trans hr)
    obtain rfl := Option.some.inj
      ((show get_fee_rate_by_tier "10-50" "3 months" = some (2 : ℚ) from rfl).symm.trans hr3)
    obtain rfl := Option.some.inj
      ((show months_map "6 months" = some 6 from rfl).symm.trans hmo)
    push_cast
    exact ⟨by linarith, by linarith,
      mul_pos (div_pos (by linarith) (by linarith)) (by norm_num)⟩
  · obtain rfl := Option.some.inj
      ((show get_fee_rate_by_tier "10-50" "9 months" = some (3 : ℚ) from rfl).symm.trans hr)
    obtain rfl := Option.some.inj
      ((show get_fee_rate_by_tier "10-50" "3 months" = some (2 : ℚ) from rfl).symm.trans hr3)
    obtain rfl := Option.some.inj
      ((show months_map "9 months" = some 9 from rfl).symm.trans hmo)
    push_cast
    exact ⟨by linarith, by linarith,
      mul_pos (div_pos (by linarith) (by linarith)) (by norm_num)⟩
  · obtain rfl := Option.some.inj
      ((show get_fee_rate_by_tier "10-50" "1 year" = some (7/2 : ℚ) from rfl).symm.trans hr)
    obtain rfl := Option.some.inj
      ((show get_fee_rate_by_tier "10-50" "3 months" = some (2 : ℚ) from rfl).symm.trans hr3)
    obtain rfl := Option.some.inj
      ((show months_map "1 year" = some 12 from rfl).symm.trans hmo)
    push_cast
    exact ⟨by linarith, by linarith,
      mul_pos (div_pos (by linarith) (by linarith)) (by norm_num)⟩
  · obtain rfl := Option.some.inj
      ((show get_fee_rate_by_tier "50-250" "6 months" = some (23/10 : ℚ) from rfl).symm.trans hr)
    obtain rfl := Option.some.inj
      ((show get_fee_rate_by_tier "50-250" "3 months" = some (9/5 : ℚ) from rfl).symm.trans hr3)
    obtain rfl := Option.some.inj
      ((show months_map "6 months" = some 6 from rfl).symm.trans hmo)
    push_cast
    exact ⟨by linarith, by linarith,
      mul_pos (div_pos (by linarith) (by linarith)) (by norm_num)⟩
  · obtain rfl := Option.some.inj
      ((show get_fee_rate_by_tier "50-250" "9 months" = some (14/5 : ℚ) from rfl).symm.trans hr)
    obtain rfl := Option.some.inj
      ((show get_fee_rate_by_tier "50-250" "3 months" = some (9/5 : ℚ) from rfl).symm.trans hr3)
    obtain rfl := Option.some.inj
      ((show months_map "9 months" = some 9 from rfl).symm.trans hmo)
    push_cast
    exact ⟨by linarith, by linarith,
      mul_pos (div_pos (by linarith) (by linarith)) (by norm_num)⟩
  · obtain rfl := Option.some.inj
      ((show get_fee_rate_by_tier "50-250" "1 year" = some (33/10 : ℚ) from rfl).symm.trans hr)
    obtain rfl := Option.some.inj
      ((show get_fee_rate_by_tier "50-250" "3 months" = some (9/5 : ℚ) from rfl).symm.trans hr3)
    obtain rfl := Option.some.inj
      ((show months_map "1 year" = some 12 from rfl).symm.trans hmo)
    push_cast
    exact ⟨by linarith, by linarith,
      mul_pos (div_pos (by linarith) (by linarith)) (by norm_num)⟩
  · obtain rfl := Option.some.inj
      ((show get_fee_rate_by_tier "250-500" "6 months" = some (11/5 : ℚ) from rfl).symm.trans hr)
    obtain rfl := Option.some.inj
      ((show get_fee_rate_by_tier "250-500" "3 months" = some (3/2 : ℚ) from rfl).symm.trans hr3)
    obtain rfl := Option.some.inj
      ((show months_map "6 months" = some 6 from rfl).symm.trans hmo)
    push_cast
    exact ⟨by linarith, by linarith,
      mul_pos (div_pos (by linarith) (by linarith)) (by norm_num)⟩
  · obtain rfl := Option.some.inj
      ((show get_fee_rate_by_tier "250-500" "9 months" = some (27/10 : ℚ) from rfl).symm.trans hr)
    obtain rfl := Option.some.inj
      ((show get_fee_rate_by_tier "250-500" "3 months" = some (3/2 : ℚ) from rfl).symm.trans hr3)
    obtain rfl := Option.some.inj
      ((show months_map "9 months" = some 9 from rfl).symm.trans hmo)
    push_cast
    exact ⟨by linarith, by linarith,
      mul_pos (div_pos (by linarith) (by linarith)) (by norm_num)⟩
  · obtain rfl := Option.some.inj
      ((show get_fee_rate_by_tier "250-500" "1 year" = some (31/10 : ℚ) from rfl).symm.trans hr)
    obtain rfl := Option.some.inj
      ((show get_fee_rate_by_tier "250-500" "3 months" = some (3/2 : ℚ) from rfl).symm.trans hr3)
    obtain rfl := Option.some.inj
      ((show months_map "1 year" = some 12 from rfl).symm.trans hmo)
    push_cast
    exact ⟨by linarith, by linarith,
      mul_pos (div_pos (by linarith) (by linarith)) (by norm_num)⟩
  · obtain rfl := Option.some.inj
      ((show get_fee_rate_by_tier "500-1000" "6 months" = some (2 : ℚ) from rfl).symm.trans hr)
    obtain rfl := Option.some.inj
      ((show get_fee_rate_by_tier "500-1000" "3 months" = some (6/5 : ℚ) from rfl).symm.trans hr3)
    obtain rfl := Option.some.inj
      ((show months_map "6 months" = some 6 from rfl).symm.trans hmo)
    push_cast
    exact ⟨by linarith, by linarith,
      mul_pos (div_pos (by linarith) (by linarith)) (by norm_num)⟩
  · obtain rfl := Option.some.inj
      ((show get_fee_rate_by_tier "500-1000" "9 months" = some (13/5 : ℚ) from rfl).symm.trans hr)
    obtain rfl := Option.some.inj
      ((show get_fee_rate_by_tier "500-1000" "3 months" = some (6/5 : ℚ) from rfl).symm.trans hr3)
    obtain rfl := Option.some.inj
      ((show months_map "9 months" = some 9 from rfl).symm.trans hmo)
    push_cast
    exact ⟨by linarith, by linarith,
      mul_pos (div_pos (by linarith) (by linarith)) (by norm_num)⟩
  · obtain rfl := Option.some.inj
      ((show get_fee_rate_by_tier "500-1000" "1 year" = some (3 : ℚ) from rfl).symm.trans hr)
    obtain rfl := Option.some.inj
      ((show get_fee_rate_by_tier "500-1000" "3 months" = some (6/5 : ℚ) from rfl).symm.trans hr3)
    obtain rfl := Option.some.inj
      ((show months_map "1 year" = some 12 from rfl).symm.trans hmo)
    push_cast
    exact ⟨by linarith, by linarith,
      mul_pos (div_pos (by linarith) (by linarith)) (by norm_num)⟩
  · obtain rfl := Option.some.inj
      ((show get_fee_rate_by_tier ">1000" "6 months" = some (9/5 : ℚ) from rfl).symm.trans hr)
    obtain rfl := Option.some.inj
      ((show get_fee_rate_by_tier ">1000" "3 months" = some (1 : ℚ) from rfl).symm.trans hr3)
    obtain rfl := Option.some.inj
      ((show months_map "6 months" = some 6 from rfl).symm.trans hmo)
    push_cast
    exact ⟨by linarith, by linarith,
      mul_pos (div_pos (by linarith) (by linarith)) (by norm_num)⟩
  · obtain rfl := Option.some.inj
      ((show get_fee_rate_by_tier ">1000" "9 months" = some (5/2 : ℚ) from rfl).symm.trans hr)
    obtain rfl := Option.some.inj
      ((show get_fee_rate_by_tier ">1000" "3 months" = some (1 : ℚ) from rfl).symm.trans hr3)
    obtain rfl := Option.some.inj
      ((show months_map "9 months" = some 9 from rfl).symm.trans hmo)
    push_cast
    exact ⟨by linarith, by linarith,
      mul_pos (div_pos (by linarith) (by linarith)) (by norm_num)⟩
  · obtain rfl := Option.some.inj
      ((show get_fee_rate_by_tier ">1000" "1 year" = some (29/10 : ℚ) from rfl).symm.trans hr)
    obtain rfl := Option.some.inj
      ((show get_fee_rate_by_tier ">1000" "3 months" = some (1 : ℚ) from rfl).symm.trans hr3)
    obtain rfl := Option.some.inj
      ((show months_map "1 year" = some 12 from rfl).symm.trans hmo)
    push_cast
    exact ⟨by linarith, by linarith,
      mul_pos (div_pos (by linarith) (by linarith)) (by norm_num)⟩

/-- C10 witness: tier "10-50" at horizon 6 months with amount 1 saves
strictly positive money per month against the 3-month plan. -/
theorem longer_horizon_saves_witness :
    (5 / 2 : ℚ) / 100 * 1 / ((6 : ℕ) : ℚ) < (2 : ℚ) / 100 * 1 / 3 ∧
    0 < (2 : ℚ) / 100 * 1 / 3 - (5 / 2 : ℚ) / 100 * 1 / ((6 : ℕ) : ℚ) ∧
    0 < ((2 : ℚ) / 100 * 1 / 3 - (5 / 2 : ℚ) / 100 * 1 / ((6 : ℕ) : ℚ)) /
        ((2 : ℚ) / 100 * 1 / 3) * 100 :=
  longer_horizon_saves "10-50" "6 months" (5 / 2) 2 6 1 (by decide) (by decide)
    rfl rfl rfl (by norm_num)


/-! ## List access helpers -/

/-- `getD` through `map`, in bounds. -/
lemma getD_map_of_lt {α β : Type} (f : α → β) (l : List α) (i : ℕ) (d : α) (d' : β)
    (h : i < l.length) : (l.map f).getD i d' = f (l.getD i d) := by
  induction l generalizing i with
  | nil => simp at h
  | cons a l ih =>
    cases i with
    | zero => simp
    | succ n => simpa using ih n (Nat.lt_of_succ_lt_succ h)

/-- `getD` through `zipWith`, in bounds on both sides. -/
lemma getD_zipWith_of_lt {α β γ : Type} (f : α → β → γ) (da : α) (db : β) (dg : γ) :
    ∀ (a : List α) (b : List β) (c : ℕ), c < a.length → c < b.length →
      (List.zipWith f a b).getD c dg = f (a.getD c da) (b.getD c db)
  | [], _, _, h, _ => by simp at h
  | _ :: _, [], _, _, h => by simp at h
  | x :: a, y :: b, 0, _, _ => by simp
  | x :: a, y :: b, c + 1, ha, hb => by
      simpa using getD_zipWith_of_lt f da db dg a b c
        (Nat.lt_of_succ_lt_succ ha) (Nat.lt_of_succ_lt_succ hb)

/-- Gauss-style closed form for the sum of the `t` ordinal positions
`g+1 .. g+t`. -/
lemma sum_Icc_two_mul (g t : ℕ) :
    (∑ j in Finset.Icc (g + 1) (g + t), j) * 2 = t * (2 * g + t + 1) := by
  induction t with
  | zero => simp [Finset.Icc_eq_empty (by omega : ¬ (g + 1 ≤ g + 0))]
  | succ n ih =>
    rw [show g + (n + 1) = (g + n) + 1 from rfl,
      Finset.sum_Icc_succ_top (by omega : g + 1 ≤ g + n + 1), Nat.add_mul, ih]
    ring

/-- A predicate that fails at every position counts zero. -/
lemma countP_eq_zero_of_get (p : ℚ → Bool) :
    ∀ (l : List ℚ), (∀ j : ℕ, j < l.length → ¬ p (l.getD j 0) = true) → l.countP p = 0
  | [], _ => rfl
  | a :: l, h => by
      rw [List.countP_cons_of_neg _ _ (by simpa using h 0 (by simp))]
      exact countP_eq_zero_of_get p l (fun j hj => by simpa using h (j + 1) (by simpa using hj))

/-- A predicate that holds at exactly one position counts one. -/
lemma countP_eq_one_of_unique (p : ℚ → Bool) :
    ∀ (l : List ℚ) (i : ℕ), i < l.length → p (l.getD i 0) = true →
      (∀ j : ℕ, j < l.length → j ≠ i → ¬ p (l.getD j 0) = true) → l.countP p = 1
  | [], i, hi, _, _ => absurd hi (by simp)
  | a :: l, 0, _, hp, h => by
      rw [List.countP_cons_of_pos _ _ (by simpa using hp),
        countP_eq_zero_of_get p l
          (fun j hj => by simpa using h (j + 1) (by simpa using hj) (by omega))]
  | a :: l, i + 1, hi, hp, h => by
      rw [List.countP_cons_of_neg _ _ (by simpa using h 0 (by simp) (by omega))]
      exact countP_eq_one_of_unique p l i (by simpa using hi) (by simpa using hp)
        (fun j hj hne => by simpa using h (j + 1) (by simpa using hj) (by omega))

/-- C3: for every retained row index t and column c (in bounds), the
normalized wealth value equals the raw trimmed price at (t, c) divided by
that column entry of the first retained row, times the initial investment;
and when that baseline entry is nonzero (the spec marks a zero baseline as
an error input), the first output row equals the initial investment. -/
theorem wealth_formula (rows : List (List ℚ)) (w : ℕ) (inv : ℚ) (t c : ℕ)
    (ht : t < (tail_window rows w).length)
    (hc : c < ((tail_window rows w).getD t []).length)
    (hc0 : c < ((tail_window rows w).getD 0 []).length) :
    cell t c (wealth_df rows w inv) =
      cell t c (tail_window rows w) / cell 0 c (tail_window rows w) * inv ∧
    (cell 0 c (tail_window rows w) ≠ 0 → cell 0 c (wealth_df rows w inv) = inv) := by
  have main : ∀ t' : ℕ, t' < (tail_window rows w).length →
      c < ((tail_window rows w).getD t' []).length →
      cell t' c (wealth_df rows w inv) =
        cell t' c (tail_window rows w) / cell 0 c (tail_window rows w) * inv := by
    intro t' ht' hc'
    unfold wealth_df cell
    cases hp : tail_window rows w with
    | nil => rw [hp] at ht'; simp at ht'
    | cons base rest =>
      rw [hp] at ht' hc' hc0
      rw [getD_map_of_lt _ _ _ [] _ ht']
      have hbase : (base :: rest).headD [] = base := rfl
      have hb0 : (base :: rest).getD 0 [] = base := rfl
      rw [hbase, hb0]
      rw [hb0] at hc0
      rw [getD_zipWith_of_lt _ 0 0 0 _ _ _ hc' hc0]
  refine ⟨main t ht hc, fun hb => ?_⟩
  have h0 : (0 : ℕ) < (tail_window rows w).length := Nat.lt_of_le_of_lt (Nat.zero_le t) ht
  rw [main 0 h0 hc0, div_self hb, one_mul]

/-- C3 witness: for the table [[2,4],[3,8]] at window 2 and initial
investment 100, cell (1,0) follows the normalization formula and the first
row is 100. -/
theorem wealth_formula_witness :
    cell 1 0 (wealth_df [[2, 4], [3, 8]] 2 100) =
      cell 1 0 (tail_window [[2, 4], [3, 8]] 2) /
        cell 0 0 (tail_window [[2, 4], [3, 8]] 2) * 100 ∧
    (cell 0 0 (tail_window [[2, 4], [3, 8]] 2) ≠ 0 →
      cell 0 0 (wealth_df [[2, 4], [3, 8]] 2 100) = 100) :=
  wealth_formula [[2, 4], [3, 8]] 2 100 1 0 (by decide) (by decide) (by decide)

/-- C7: normalization is scale-invariant in the initial investment: scaling
the initial investment by k scales every cell of the output by k. -/
theorem wealth_scale_invariant (rows : List (List ℚ)) (w : ℕ) (k inv : ℚ) (hk : 0 < k) :
    wealth_df rows w (k * inv) =
      (wealth_df rows w inv).map (fun r => r.map (fun x => k * x)) := by
  unfold wealth_df
  simp only [List.map_map]
  congr 1
  funext r
  simp only [Function.comp]
  rw [List.map_zipWith]
  congr 1
  funext x b
  ring

/-- C7 witness: doubling the initial investment 100 on the table [[2],[4]]
doubles the output table. -/
theorem wealth_scale_invariant_witness :
    wealth_df [[2], [4]] 2 (2 * 100) =
      (wealth_df [[2], [4]] 2 100).map (fun r => r.map (fun x => 2 * x)) :=
  wealth_scale_invariant [[2], [4]] 2 2 100 (by norm_num)

/-- C6: for every retained row, the ranking is the per-row average rank of
the raw values: each entry beaten by g strictly greater entries and tied
with t entries receives the mean of the ordinal positions g+1 .. g+t it
jointly occupies (descending order), and an entry strictly greater than
every other entry of its row receives rank 1. -/
theorem ranking_average_rank (rows : List (List ℚ)) (w : ℕ) (t i : ℕ)
    (ht : t < (tail_window rows w).length)
    (hi : i < ((tail_window rows w).getD t []).length) :
    (ranking rows w).getD t [] = rank_row ((tail_window rows w).getD t []) ∧
    (rank_row ((tail_window rows w).getD t [])).getD i 0 =
      (∑ j in Finset.Icc
          (greaterCount ((tail_window rows w).getD t [])
              (((tail_window rows w).getD t []).getD i 0) + 1)
          (greaterCount ((tail_window rows w).getD t [])
              (((tail_window rows w).getD t []).getD i 0) +
            tieCount ((tail_window rows w).getD t [])
              (((tail_window rows w).getD t []).getD i 0)), (j : ℚ)) /
        (tieCount ((tail_window rows w).getD t [])
            (((tail_window rows w).getD t []).getD i 0) : ℚ) ∧
    ((∀ j : ℕ, j < ((tail_window rows w).getD t []).length → j ≠ i →
        ((tail_window rows w).getD t []).getD j 0 <
          ((tail_window rows w).getD t []).getD i 0) →
      (rank_row ((tail_window rows w).getD t [])).getD i 0 = 1) := by
  set row := (tail_window rows w).getD t [] with hrow
  set v := row.getD i 0 with hv
  have hrk : (rank_row row).getD i 0 =
      (greaterCount row v : ℚ) + ((tieCount row v : ℚ) + 1) / 2 := by
    unfold rank_row
    rw [getD_map_of_lt _ _ _ 0 _ hi]
  have hvmem : v ∈ row := by
    rw [hv, List.getD_eq_getElem _ _ hi]
    exact List.getElem_mem hi
  have ht1 : 1 ≤ tieCount row v := by
    have : 0 < row.countP (fun x => x = v) :=
      List.countP_pos_iff.mpr ⟨v, hvmem, by simp⟩
    unfold tieCount
    omega
  refine ⟨?_, ?_, ?_⟩
  · unfold ranking
    exact getD_map_of_lt _ _ _ [] _ ht
  · rw [hrk]
    have hcast := congrArg (Nat.cast : ℕ → ℚ)
      (sum_Icc_two_mul (greaterCount row v) (tieCount row v))
    push_cast at hcast
    have htq : (tieCount row v : ℚ) ≠ 0 := Nat.cast_ne_zero.mpr (by omega)
    field_simp
    linarith [hcast]
  · intro hmax
    have hg : greaterCount row v = 0 := by
      unfold greaterCount
      rw [List.countP_eq_zero]
      intro a ha
      simp only [decide_eq_true_eq]
      obtain ⟨j, hj, rfl⟩ := List.mem_iff_getElem.mp ha
      rw [← List.getD_eq_getElem _ 0 hj]
      by_cases hji : j = i
      · subst hji
        exact lt_irrefl _
      · exact fun hlt => absurd hlt (not_lt.mpr (hmax j hj hji).le)
    have ht2 : tieCount row v = 1 := by
      unfold tieCount
      exact countP_eq_one_of_unique _ row i hi
        (by simp only [decide_eq_true_eq])
        (fun j hj hne => by simpa using (hmax j hj hne).ne)
    rw [hrk, hg, ht2]
    norm_num

/-- C6 witness: on the single retained row [3, 3, 1], the ranking row is
the average-rank row, and the two-way tie for best receives rank 3/2 = 1.5
for both while the last entry receives rank 3. -/
theorem ranking_average_rank_witness :
    ((ranking [[3, 3, 1]] 1).getD 0 [] =
      rank_row ((tail_window [[3, 3, 1]] 1).getD 0 [])) ∧
    rank_row [(3 : ℚ), 3, 1] = [3 / 2, 3 / 2, 3] := by
  constructor
  · exact (ranking_average_rank [[3, 3, 1]] 1 0 0 (by decide) (by decide)).1
  · norm_num [rank_row, greaterCount, tieCount, List.countP, List.countP.go]

/-- C8 counterexample: with a zero baseline (first retained value of the
only column is 0), the normalization does NOT fail with a typed error: it
returns a table whose cells are NaN and +infinity, i.e. the division by
zero is silently coerced into the output. -/
theorem normalization_no_typed_error_cex :
    wealth_pandas [[0], [5]] 2 100 = some [[PFloat.nan], [PFloat.inf]] ∧
    wealth_pandas [[0], [5]] 2 100 ≠ none := by
  have h : wealth_pandas [[0], [5]] 2 100 = some [[PFloat.nan], [PFloat.inf]] := by
    norm_num [wealth_pandas, tail_window, pdiv, pmul]
  exact ⟨h, by rw [h]; simp⟩

/-- C8 amended: the normalization raises no typed error: an empty trimmed
series produces an untyped index failure (modelled `none`), and a zero
baseline column is silently propagated as NaN/infinity cell values in a
normally returned table. -/
theorem normalization_silent_failures (x inv : ℚ) (hx : 0 < x) (hinv : 0 < inv) (w : ℕ) :
    wealth_pandas ([] : List (List ℚ)) w inv = none ∧
    wealth_pandas [[0], [x]] 2 inv = some [[PFloat.nan], [PFloat.inf]] := by
  constructor
  · have hempty : tail_window ([] : List (List ℚ)) w = [] := by simp [tail_window]
    rw [wealth_pandas.eq_def, hempty]
  · have h2 : tail_window [[0], [x]] 2 = [[0], [x]] := rfl
    rw [wealth_pandas.eq_def, h2]
    norm_num [pdiv, pmul, hx, hinv]

/-- C8 amended witness: the empty series at window 3 gives the index
failure, and baseline 0 with later value 5 at investment 100 gives
[[NaN], [inf]]. -/
theorem normalization_silent_failures_witness :
    wealth_pandas ([] : List (List ℚ)) 3 100 = none ∧
    wealth_pandas [[0], [5]] 2 100 = some [[PFloat.nan], [PFloat.inf]] :=
  normalization_silent_failures 5 100 (by norm_num) (by norm_num) 3

end Datavest
